import Mathlib

/-!
Shallow embedding of the pdlib_nrf24l01 nRF24L01 driver
(src/arm/stellaris_lm4f120h5qr/pdlib_nrf24l01.c, "arm" variant, and
src/example/stellaris_lm4f120h5qr/pdlib_nrf24l01_test/pdlib_nrf24l01.c,
"test" variant).

The SPI bus is full duplex: every transmitted byte clocks one byte back in.
We model the bus environment by a response function `resp : Nat → Nat` giving
the byte clocked in for the i-th byte transferred since initialization
(masked to 8 bits), and we record every observable action (CSN/CE pin edges
and byte transfers) in an event trace.  The driver's global state
(`g_ucStatus` plus the transfer position and the trace) is threaded
explicitly.  Pointers are modelled by `Option (List Nat)` (`none` = NULL),
and `malloc` success by an explicit `allocOk : Bool` flag; the unspecified
contents of a freshly allocated buffer are modelled by a `junk` function.
-/

set_option maxRecDepth 8000

/-- A byte value, kept as `Nat`; transport responses are masked to 8 bits. -/
abbrev Byte := Nat

/-- Observable bus events: CSN and CE pin edges, and single byte transfers
`xfer sent received`. -/
inductive Ev where
  | csnLow : Ev
  | csnHigh : Ev
  | ceLow : Ev
  | ceHigh : Ev
  | xfer : Byte → Byte → Ev
  deriving DecidableEq, Repr

/-- Driver-global state: the stored status byte `g_ucStatus`, the number of
bytes transferred so far (index into the response function), and the event
trace accumulated so far. -/
structure St where
  status : Byte
  txIdx : Nat
  events : List Ev
  deriving DecidableEq, Repr

/-- The initial driver state (status byte cleared, nothing transferred). -/
def st0 : St := { status := 0, txIdx := 0, events := [] }

/-- Modelled from the spec: the vendor constants of the chip's SPI protocol
(register read/write masks, FLUSH_TX/FLUSH_RX, no-op and write-payload
opcodes, register addresses and bit masks).  They come from the vendor
header `nRF24L01.h`, which is not under `src/`; the values are the nRF24L01
datasheet values the spec refers to. -/
def RF24_R_REGISTER : Byte := 0x00

/-- Modelled from the spec: write-register opcode mask (`W_REGISTER`). -/
def RF24_W_REGISTER : Byte := 0x20

/-- Modelled from the spec: no-op opcode. -/
def RF24_NOP : Byte := 0xFF

/-- Modelled from the spec: flush-TX-FIFO opcode. -/
def RF24_FLUSH_TX : Byte := 0xE1

/-- Modelled from the spec: flush-RX-FIFO opcode. -/
def RF24_FLUSH_RX : Byte := 0xE2

/-- Modelled from the spec: write-TX-payload opcode. -/
def RF24_W_TX_PAYLOAD : Byte := 0xA0

/-- Modelled from the spec: CONFIG register address. -/
def RF24_CONFIG : Byte := 0x00

/-- Modelled from the spec: RF channel register address. -/
def RF24_RF_CH : Byte := 0x05

/-- Modelled from the spec: RF setup register address. -/
def RF24_RF_SETUP : Byte := 0x06

/-- Modelled from the spec: RX pipe 0 address register. -/
def RF24_RX_ADDR_P0 : Byte := 0x0A

/-- Modelled from the spec: TX address register. -/
def RF24_TX_ADDR : Byte := 0x10

/-- Modelled from the spec: RX pipe 0 payload width register. -/
def RF24_RX_PW_P0 : Byte := 0x11

/-- Modelled from the spec: FIFO status register address. -/
def RF24_FIFO_STATUS : Byte := 0x17

/-- Modelled from the spec: TX-FIFO-full bit of the FIFO_STATUS register. -/
def RF24_TX_FULL : Byte := 0x20

/-- Modelled from the spec: RX-FIFO-empty bit of the FIFO_STATUS register. -/
def RF24_RX_EMPTY : Byte := 0x01

/-- Modelled from the spec: transmit-complete bit of the STATUS byte. -/
def RF24_TX_DS : Byte := 0x20

/-- Modelled from the spec: max-retransmits bit of the STATUS byte. -/
def RF24_MAX_RT : Byte := 0x10

/-- Modelled from the spec: power-up bit of the CONFIG register. -/
def RF24_PWR_UP : Byte := 0x02

/-- Modelled from the spec: primary-RX bit of the CONFIG register. -/
def RF24_PRIM_RX : Byte := 0x01

/-- Modelled from the spec: the full-duplex single-byte exchange
(`pdlibSPI_TransferByte` in the test variant; in the arm variant the pair
`pdlibSPI_SendData` / `pdlibSPI_ReceiveDataBlocking` yields the byte clocked
in on the corresponding transmitted byte).  The transmitted byte and the
response are recorded in the trace; the response of the i-th byte ever
transferred is `resp i`, masked to 8 bits. -/
def stXfer (resp : Nat → Byte) (b : Byte) (s : St) : Byte × St :=
  let r := resp s.txIdx % 256
  (r, { s with txIdx := s.txIdx + 1, events := s.events ++ [Ev.xfer b r] })

/-- Modelled from the spec: `sendBytes(buffer, length)` transmits the buffer
bytes in order (each one a full-duplex exchange). -/
def stSend (resp : Nat → Byte) (buf : List Byte) (s : St) : St :=
  buf.foldl (fun t b => (stXfer resp b t).2) s

/-- `_NRF24L01_CSNLow`: drive the chip-select line low. -/
def csnLowOp (s : St) : St := { s with events := s.events ++ [Ev.csnLow] }

/-- `_NRF24L01_CSNHigh`: drive the chip-select line high. -/
def csnHighOp (s : St) : St := { s with events := s.events ++ [Ev.csnHigh] }

/-- `_NRF24L01_CELow`: drive the chip-enable line low. -/
def ceLowOp (s : St) : St := { s with events := s.events ++ [Ev.ceLow] }

/-- `_NRF24L01_CEHigh`: drive the chip-enable line high. -/
def ceHighOp (s : St) : St := { s with events := s.events ++ [Ev.ceHigh] }

/-- `_NRF24L01_RegisterWrite_8` (arm variant, lines 710-725) and
`NRF24L01_RegisterWrite_8` (test variant, lines 922-939): CSN low, transfer
`W_REGISTER | register` then `value`, update `g_ucStatus` from the byte
clocked in on the opcode byte, CSN high.  Both variants produce this same
exchange. -/
def NRF24L01_RegisterWrite_8 (resp : Nat → Byte) (reg val : Byte) (s : St) : St :=
  let s1 := csnLowOp s
  let p := stXfer resp (RF24_W_REGISTER ||| reg) s1
  let s2 := (stXfer resp val p.2).2
  csnHighOp { s2 with status := p.1 }

/-- `NRF24L01_RegisterRead_8` (arm lines 829-848, test lines 1044-1058):
CSN low, transfer `R_REGISTER | register` (status clocked in), transfer a
no-op byte (register value clocked in), CSN high; returns the register
value. -/
def NRF24L01_RegisterRead_8 (resp : Nat → Byte) (reg : Byte) (s : St) : Byte × St :=
  let s1 := csnLowOp s
  let p1 := stXfer resp (RF24_R_REGISTER ||| reg) s1
  let p2 := stXfer resp RF24_NOP p1.2
  (p2.1, csnHighOp { p2.2 with status := p1.1 })

/-- `_NRF24L01_RegisterWrite_Multi` (arm lines 744-768) and
`NRF24L01_RegisterWrite_Multi` (test lines 958-981): if the data pointer is
NULL or the transient buffer allocation fails, do nothing; otherwise CSN
low, transfer `W_REGISTER | register` (status clocked in) followed by the
buffer bytes, CSN high. -/
def NRF24L01_RegisterWrite_Multi (resp : Nat → Byte) (allocOk : Bool)
    (reg : Byte) (data : Option (List Byte)) (s : St) : St :=
  match data with
  | none => s
  | some buf =>
    if allocOk then
      let s1 := csnLowOp s
      let p := stXfer resp (RF24_W_REGISTER ||| reg) s1
      let s2 := stSend resp buf p.2
      csnHighOp { s2 with status := p.1 }
    else s

/-- `_NRF24L01_SendCommand` (arm variant, lines 788-812): if the transient
buffer allocation fails, do nothing.  Otherwise build the frame: opcode
followed by `len` bytes, copied from `data` when the pointer is non-NULL and
left as the allocated buffer's unspecified contents (the `junk` function)
when it is NULL; CSN low, transfer the frame, update `g_ucStatus` from the
byte clocked in on the opcode, CSN high. -/
def sendCommandArm (resp junk : Nat → Byte) (allocOk : Bool) (cmd : Byte)
    (data : Option (List Byte)) (len : Nat) (s : St) : St :=
  if allocOk then
    let payload := match data with
      | some buf => buf
      | none => (List.range len).map junk
    let s1 := csnLowOp s
    let p := stXfer resp cmd s1
    let s2 := stSend resp payload p.2
    csnHighOp { s2 with status := p.1 }
  else s

/-- `_NRF24L01_SendCommand` (test variant, lines 1001-1027): identical frame
construction and CSN bracketing to the arm variant, but the statement
updating `g_ucStatus` is commented out in the source (line 1021), so the
stored status byte is left unchanged. -/
def sendCommandTest (resp junk : Nat → Byte) (allocOk : Bool) (cmd : Byte)
    (data : Option (List Byte)) (len : Nat) (s : St) : St :=
  if allocOk then
    let payload := match data with
      | some buf => buf
      | none => (List.range len).map junk
    let s1 := csnLowOp s
    let s2 := stSend resp payload (stXfer resp cmd s1).2
    csnHighOp s2
  else s

/-- `NRF24L01_FlushTX` (arm variant): send the FLUSH_TX opcode with no
payload. -/
def NRF24L01_FlushTX_arm (resp : Nat → Byte) (allocOk : Bool) (s : St) : St :=
  sendCommandArm resp (fun _ => 0) allocOk RF24_FLUSH_TX none 0 s

/-- `NRF24L01_FlushTX` (test variant): send the FLUSH_TX opcode with no
payload. -/
def NRF24L01_FlushTX_test (resp : Nat → Byte) (allocOk : Bool) (s : St) : St :=
  sendCommandTest resp (fun _ => 0) allocOk RF24_FLUSH_TX none 0 s

/-- `NRF24L01_FlushRX` (test variant): send the FLUSH_RX opcode with no
payload. -/
def NRF24L01_FlushRX_test (resp : Nat → Byte) (allocOk : Bool) (s : St) : St :=
  sendCommandTest resp (fun _ => 0) allocOk RF24_FLUSH_RX none 0 s

/-- `NRF24L01_GetStatus` (both variants): issue `RegisterRead_8(RF24_NOP)`
(which refreshes `g_ucStatus` from the first byte clocked in) and return the
stored status byte. -/
def NRF24L01_GetStatus (resp : Nat → Byte) (s : St) : Byte × St :=
  let s1 := (NRF24L01_RegisterRead_8 resp RF24_NOP s).2
  (s1.status, s1)

/-- `NRF24L01_IsTxFifoFull` (test variant, lines 523-530): read FIFO_STATUS
and return `(value & RF24_TX_FULL) ? 0 : 1` exactly as the source does (note
the source's own header comment documents the opposite meaning: 0 = not
full, 1 = full). -/
def NRF24L01_IsTxFifoFull (resp : Nat → Byte) (s : St) : Nat × St :=
  let p := NRF24L01_RegisterRead_8 resp RF24_FIFO_STATUS s
  (if p.1 &&& RF24_TX_FULL ≠ 0 then 0 else 1, p.2)

/-- `NRF24L01_IsDataReadyRx` (both variants): read FIFO_STATUS and report
whether the RX-FIFO-empty bit is clear. -/
def NRF24L01_IsDataReadyRx (resp : Nat → Byte) (s : St) : Nat × St :=
  let p := NRF24L01_RegisterRead_8 resp RF24_FIFO_STATUS s
  (if p.1 &&& RF24_RX_EMPTY ≠ 0 then 0 else 1, p.2)

/-- `NRF24L01_SetTxPayload` (test variant, lines 684-705): first call
`NRF24L01_IsTxFifoFull()`; on a truthy result return -1 without sending,
otherwise send the W_TX_PAYLOAD command with the payload and return 0. -/
def NRF24L01_SetTxPayload_test (resp junk : Nat → Byte) (allocOk : Bool)
    (data : Option (List Byte)) (len : Nat) (s : St) : Int × St :=
  let p := NRF24L01_IsTxFifoFull resp s
  if p.1 ≠ 0 then (-1, p.2)
  else (0, sendCommandTest resp junk allocOk RF24_W_TX_PAYLOAD data len p.2)

/-- `NRF24L01_GetRxDataAmount` (arm lines 403-415, test lines 547-559): for
a pipe index below 6, read `RX_PW_P0 + pipe` and return the value masked to
the low 6 bits; otherwise return 0 with no bus activity. -/
def NRF24L01_GetRxDataAmount (resp : Nat → Byte) (pipe : Byte) (s : St) : Byte × St :=
  if pipe < 6 then
    let p := NRF24L01_RegisterRead_8 resp (RF24_RX_PW_P0 + pipe) s
    (p.1 &&& 0x3F, p.2)
  else (0, s)

/-- `NRF24L01_SetRxAddress` (arm lines 455-476, test lines 645-667): NULL
address does nothing; pipes 0 and 1 get a 5-byte multi register write of the
address bytes, pipes 2-5 get a single-byte register write of `address[0]`,
higher pipe indices do nothing. -/
def NRF24L01_SetRxAddress (resp : Nat → Byte) (allocOk : Bool) (pipe : Byte)
    (addr : Option (List Byte)) (s : St) : St :=
  match addr with
  | none => s
  | some a =>
    if pipe ≤ 1 then
      NRF24L01_RegisterWrite_Multi resp allocOk (RF24_RX_ADDR_P0 + pipe) (some (a.take 5)) s
    else if pipe ≤ 5 then
      NRF24L01_RegisterWrite_8 resp (RF24_RX_ADDR_P0 + pipe) (a.headD 0) s
    else s

/-- `NRF24L01_SetTXAddress` (both variants): 5-byte multi register write of
the address to TX_ADDR. -/
def NRF24L01_SetTXAddress (resp : Nat → Byte) (allocOk : Bool)
    (addr : Option (List Byte)) (s : St) : St :=
  match addr with
  | none => NRF24L01_RegisterWrite_Multi resp allocOk RF24_TX_ADDR none s
  | some a => NRF24L01_RegisterWrite_Multi resp allocOk RF24_TX_ADDR (some (a.take 5)) s

/-- `NRF24L01_SetAirDataRate` (arm variant, lines 155-162): read RF_SETUP,
OR in `rate << 3` (truncated to a byte by the `unsigned char` assignment),
write the result back. -/
def NRF24L01_SetAirDataRate_arm (resp : Nat → Byte) (rate : Byte) (s : St) : St :=
  let p := NRF24L01_RegisterRead_8 resp RF24_RF_SETUP s
  NRF24L01_RegisterWrite_8 resp RF24_RF_SETUP ((p.1 ||| (rate <<< 3)) % 256) p.2

/-- `NRF24L01_SetRFChannel` (arm lines 180-184, test lines 275-279): a
single direct register write of the argument to RF_CH, with no read and no
masking. -/
def NRF24L01_SetRFChannel (resp : Nat → Byte) (ch : Byte) (s : St) : St :=
  NRF24L01_RegisterWrite_8 resp RF24_RF_CH ch s

/-- `NRF24L01_SetPAGain` (arm variant, lines 204-211): read RF_SETUP, OR in
`gain << 1` (truncated to a byte), write back. -/
def NRF24L01_SetPAGain_arm (resp : Nat → Byte) (g : Byte) (s : St) : St :=
  let p := NRF24L01_RegisterRead_8 resp RF24_RF_SETUP s
  NRF24L01_RegisterWrite_8 resp RF24_RF_SETUP ((p.1 ||| (g <<< 1)) % 256) p.2

/-- `NRF24L01_SetLNAGain` (arm lines 227-234, test lines 340-347): read
RF_SETUP, OR in `gain << 0`, write back. -/
def NRF24L01_SetLNAGain (resp : Nat → Byte) (g : Byte) (s : St) : St :=
  let p := NRF24L01_RegisterRead_8 resp RF24_RF_SETUP s
  NRF24L01_RegisterWrite_8 resp RF24_RF_SETUP ((p.1 ||| (g <<< 0)) % 256) p.2

/-- `NRF24L01_SetPAGain` (test variant, lines 299-324): takes a dBm value as
`int`, clamps it to [-18, 0], maps it through `3 - (-gain / 6)`, and then -
faithfully reproducing the source's use of the logical `&&` operator in
`(iPAGain && 0x03)` - ORs `(gain2 nonzero ? 1 : 0) << 1` into RF_SETUP. -/
def NRF24L01_SetPAGain_test (resp : Nat → Byte) (g : Int) (s : St) : St :=
  let p := NRF24L01_RegisterRead_8 resp RF24_RF_SETUP s
  let g1 : Int := if g < -18 then -18 else if g > 0 then 0 else g
  let g2 : Int := 3 - (-1 * g1 / 6)
  let b : Nat := if g2 ≠ 0 ∧ (0x03 : Int) ≠ 0 then 1 else 0
  NRF24L01_RegisterWrite_8 resp RF24_RF_SETUP ((p.1 ||| (b <<< 1)) % 256) p.2

/-- The status-byte mask `RF24_MAX_RT | RF24_TX_DS` polled by
`NRF24L01_WaitForTxComplete`. -/
def txDoneMask : Byte := RF24_MAX_RT ||| RF24_TX_DS

/-- The `while(!(g_ucStatus & (RF24_MAX_RT | RF24_TX_DS))) GetStatus();`
loop of `NRF24L01_WaitForTxComplete` (test variant), with explicit fuel:
`none` means the loop was still running after `fuel` iterations. -/
def waitLoop (resp : Nat → Byte) (fuel : Nat) (s : St) : Option St :=
  match fuel with
  | 0 => none
  | f + 1 =>
    if s.status &&& txDoneMask ≠ 0 then some s
    else waitLoop resp f (NRF24L01_GetStatus resp s).2

/-- `NRF24L01_WaitForTxComplete` (test variant, lines 606-627): refresh the
status once; in non-blocking mode immediately return
`(status & (MAX_RT | TX_DS)) << 4`; in blocking mode poll the status until
one of the two bits is set and return the same encoding.  The fuel only
bounds the poll loop; `none` means the source loop would still be
spinning after `fuel` polls. -/
def NRF24L01_WaitForTxComplete (resp : Nat → Byte) (fuel : Nat)
    (waitMode : Bool) (s : St) : Option (Nat × St) :=
  let s1 := (NRF24L01_GetStatus resp s).2
  if waitMode then
    match waitLoop resp fuel s1 with
    | some s2 => some ((s2.status &&& txDoneMask) <<< 4, s2)
    | none => none
  else
    some ((s1.status &&& txDoneMask) <<< 4, s1)

/-- The events generated by transferring `buf` starting at global byte index
`i`: each byte paired with its masked response. -/
def xferEvents (resp : Nat → Byte) (i : Nat) : List Byte → List Ev
  | [] => []
  | b :: rest => Ev.xfer b (resp i % 256) :: xferEvents resp (i + 1) rest

/-- The bytes transmitted in a trace, in order. -/
def sentBytes : List Ev → List Byte
  | [] => []
  | Ev.xfer b _ :: rest => b :: sentBytes rest
  | _ :: rest => sentBytes rest

/-- The four events of a single-register read bracket starting at byte index
`i`. -/
def readBracket (resp : Nat → Byte) (i : Nat) (reg : Byte) : List Ev :=
  [Ev.csnLow, Ev.xfer (RF24_R_REGISTER ||| reg) (resp i % 256),
   Ev.xfer RF24_NOP (resp (i + 1) % 256), Ev.csnHigh]

/-- The four events of a single-register write bracket starting at byte
index `i`, writing `val`. -/
def writeBracket (resp : Nat → Byte) (i : Nat) (reg val : Byte) : List Ev :=
  [Ev.csnLow, Ev.xfer (RF24_W_REGISTER ||| reg) (resp i % 256),
   Ev.xfer val (resp (i + 1) % 256), Ev.csnHigh]

theorem stSend_spec (resp : Nat → Byte) (buf : List Byte) (s : St) :
    stSend resp buf s =
      { s with txIdx := s.txIdx + buf.length,
               events := s.events ++ xferEvents resp s.txIdx buf } := by
  induction buf generalizing s with
  | nil => simp [stSend, xferEvents]
  | cons b rest ih =>
    simp only [stSend, List.foldl_cons] at *
    rw [ih]
    simp [stXfer, xferEvents, List.append_assoc, Nat.add_assoc, Nat.add_comm 1 rest.length]

theorem RegisterWrite_8_spec (resp : Nat → Byte) (reg val : Byte) (s : St) :
    NRF24L01_RegisterWrite_8 resp reg val s =
      { status := resp s.txIdx % 256, txIdx := s.txIdx + 2,
        events := s.events ++ writeBracket resp s.txIdx reg val } := by
  simp [NRF24L01_RegisterWrite_8, csnLowOp, csnHighOp, stXfer, writeBracket]

theorem RegisterRead_8_spec (resp : Nat → Byte) (reg : Byte) (s : St) :
    NRF24L01_RegisterRead_8 resp reg s =
      (resp (s.txIdx + 1) % 256,
       { status := resp s.txIdx % 256, txIdx := s.txIdx + 2,
         events := s.events ++ readBracket resp s.txIdx reg }) := by
  simp [NRF24L01_RegisterRead_8, csnLowOp, csnHighOp, stXfer, readBracket]

theorem RegisterWrite_Multi_spec (resp : Nat → Byte) (reg : Byte)
    (buf : List Byte) (s : St) :
    NRF24L01_RegisterWrite_Multi resp true reg (some buf) s =
      { status := resp s.txIdx % 256, txIdx := s.txIdx + 1 + buf.length,
        events := s.events ++ [Ev.csnLow, Ev.xfer (RF24_W_REGISTER ||| reg) (resp s.txIdx % 256)]
          ++ xferEvents resp (s.txIdx + 1) buf ++ [Ev.csnHigh] } := by
  simp [NRF24L01_RegisterWrite_Multi, csnLowOp, csnHighOp, stXfer, stSend_spec,
        List.append_assoc]

theorem sendCommandArm_spec (resp junk : Nat → Byte) (cmd : Byte)
    (data : Option (List Byte)) (len : Nat) (s : St) :
    sendCommandArm resp junk true cmd data len s =
      { status := resp s.txIdx % 256,
        txIdx := s.txIdx + 1 + (match data with
          | some buf => buf
          | none => (List.range len).map junk).length,
        events := s.events ++ [Ev.csnLow, Ev.xfer cmd (resp s.txIdx % 256)]
          ++ xferEvents resp (s.txIdx + 1) (match data with
            | some buf => buf
            | none => (List.range len).map junk) ++ [Ev.csnHigh] } := by
  simp [sendCommandArm, csnLowOp, csnHighOp, stXfer, stSend_spec, List.append_assoc]

theorem sendCommandTest_spec (resp junk : Nat → Byte) (cmd : Byte)
    (data : Option (List Byte)) (len : Nat) (s : St) :
    sendCommandTest resp junk true cmd data len s =
      { status := s.status,
        txIdx := s.txIdx + 1 + (match data with
          | some buf => buf
          | none => (List.range len).map junk).length,
        events := s.events ++ [Ev.csnLow, Ev.xfer cmd (resp s.txIdx % 256)]
          ++ xferEvents resp (s.txIdx + 1) (match data with
            | some buf => buf
            | none => (List.range len).map junk) ++ [Ev.csnHigh] } := by
  simp [sendCommandTest, csnLowOp, csnHighOp, stXfer, stSend_spec, List.append_assoc]

theorem GetStatus_spec (resp : Nat → Byte) (s : St) :
    NRF24L01_GetStatus resp s =
      (resp s.txIdx % 256,
       { status := resp s.txIdx % 256, txIdx := s.txIdx + 2,
         events := s.events ++ readBracket resp s.txIdx RF24_NOP }) := by
  simp [NRF24L01_GetStatus, RegisterRead_8_spec]

theorem xferEvents_length (resp : Nat → Byte) (buf : List Byte) :
    ∀ i, (xferEvents resp i buf).length = buf.length := by
  induction buf with
  | nil => intro i; simp [xferEvents]
  | cons b rest ih => intro i; simp [xferEvents, ih]

theorem sentBytes_xferEvents (resp : Nat → Byte) (buf : List Byte) :
    ∀ i, sentBytes (xferEvents resp i buf) = buf := by
  induction buf with
  | nil => intro i; simp [xferEvents, sentBytes]
  | cons b rest ih => intro i; simp [xferEvents, sentBytes, ih]

/-- Claim C1: an 8-bit register write performs exactly one CSN low-then-high
bracket enclosing exactly 2 transferred bytes, the first equal to
`W_REGISTER | r` and the second equal to `v`; a multi-byte register write of
a length-N buffer brackets exactly `1 + N` transferred bytes, the first
equal to `W_REGISTER | r` followed by the N buffer bytes in order. -/
theorem C1_register_write_bracket (resp : Nat → Byte) (r v : Byte)
    (buf : List Byte) (s : St) :
    (NRF24L01_RegisterWrite_8 resp r v s).events =
      s.events ++ [Ev.csnLow, Ev.xfer (RF24_W_REGISTER ||| r) (resp s.txIdx % 256),
                   Ev.xfer v (resp (s.txIdx + 1) % 256), Ev.csnHigh]
    ∧ (NRF24L01_RegisterWrite_Multi resp true r (some buf) s).events =
      s.events ++ [Ev.csnLow, Ev.xfer (RF24_W_REGISTER ||| r) (resp s.txIdx % 256)]
        ++ xferEvents resp (s.txIdx + 1) buf ++ [Ev.csnHigh]
    ∧ (xferEvents resp (s.txIdx + 1) buf).length = buf.length
    ∧ sentBytes (xferEvents resp (s.txIdx + 1) buf) = buf := by
  refine ⟨?_, ?_, xferEvents_length resp buf _, sentBytes_xferEvents resp buf _⟩
  · rw [RegisterWrite_8_spec]; simp [writeBracket]
  · rw [RegisterWrite_Multi_spec]

/-- Claim C2: a single-register read performs exactly one CSN low-then-high
bracket enclosing exactly 2 transferred bytes, the first equal to
`R_REGISTER | r` and the second a no-op byte; it returns the second byte
received from the transport, and the stored status byte is updated from the
first byte received. -/
theorem C2_register_read_8 (resp : Nat → Byte) (r : Byte) (s : St) :
    (NRF24L01_RegisterRead_8 resp r s).2.events =
      s.events ++ [Ev.csnLow, Ev.xfer (RF24_R_REGISTER ||| r) (resp s.txIdx % 256),
                   Ev.xfer RF24_NOP (resp (s.txIdx + 1) % 256), Ev.csnHigh]
    ∧ (NRF24L01_RegisterRead_8 resp r s).1 = resp (s.txIdx + 1) % 256
    ∧ (NRF24L01_RegisterRead_8 resp r s).2.status = resp s.txIdx % 256 := by
  rw [RegisterRead_8_spec]
  simp [readBracket]

/-- Claim C3 (code bug): in the test variant, `_NRF24L01_SendCommand` has
its status update commented out (source line 1021), so `NRF24L01_FlushTX`
leaves the stored status byte unchanged (here 0) even though the transaction
clocked in 0xAB on its first byte - contradicting both the claimed invariant
and the function's own header comment.  The arm variant does update it. -/
theorem C3_test_sendCommand_skips_status_update :
    (NRF24L01_FlushTX_test (fun _ => 0xAB) true st0).status = 0
    ∧ (NRF24L01_FlushTX_test (fun _ => 0xAB) true st0).events =
        [Ev.csnLow, Ev.xfer RF24_FLUSH_TX 0xAB, Ev.csnHigh]
    ∧ (NRF24L01_FlushTX_arm (fun _ => 0xAB) true st0).status = 0xAB := by
  decide

/-- Claim C4 (code bug): `NRF24L01_IsTxFifoFull` returns
`(fifoStatus & TX_FULL) ? 0 : 1`, the opposite of its own documented
meaning, so `NRF24L01_SetTxPayload` (test variant) returns -1 and transmits
nothing exactly when the TX FIFO is NOT full, and transmits the payload
(returning 0) when the TX FIFO IS full.  Evaluated here at both a
FIFO_STATUS response with TX_FULL set (0x20) and one with it clear (0x00). -/
theorem C4_setTxPayload_fifo_check_inverted :
    (NRF24L01_SetTxPayload_test (fun _ => 0x20) (fun _ => 0) true (some [1, 2]) 2 st0).1 = 0
    ∧ Ev.xfer RF24_W_TX_PAYLOAD 0x20 ∈
        (NRF24L01_SetTxPayload_test (fun _ => 0x20) (fun _ => 0) true (some [1, 2]) 2 st0).2.events
    ∧ (NRF24L01_SetTxPayload_test (fun _ => 0x00) (fun _ => 0) true (some [1, 2]) 2 st0).1 = -1
    ∧ (NRF24L01_SetTxPayload_test (fun _ => 0x00) (fun _ => 0) true (some [1, 2]) 2 st0).2.events =
        [Ev.csnLow, Ev.xfer (RF24_R_REGISTER ||| RF24_FIFO_STATUS) 0x00,
         Ev.xfer RF24_NOP 0x00, Ev.csnHigh]
    ∧ (NRF24L01_IsTxFifoFull (fun _ => 0x20) st0).1 = 0
    ∧ (NRF24L01_IsTxFifoFull (fun _ => 0x00) st0).1 = 1 := by
  decide

theorem waitLoop_term (resp : Nat → Byte) :
    ∀ k (s : St),
      (s.status &&& txDoneMask ≠ 0
        ∨ ∃ j, j < k ∧ (resp (s.txIdx + 2 * j) % 256) &&& txDoneMask ≠ 0) →
      ∃ s2, waitLoop resp (k + 1) s = some s2 ∧ s2.status &&& txDoneMask ≠ 0 := by
  intro k
  induction k with
  | zero =>
    intro s h
    rcases h with h | ⟨j, hj, _⟩
    · exact ⟨s, by simp [waitLoop, h], h⟩
    · omega
  | succ k ih =>
    intro s h
    by_cases hs : s.status &&& txDoneMask ≠ 0
    · exact ⟨s, by simp [waitLoop, hs], hs⟩
    · rcases h with h | ⟨j, hj, hgood⟩
      · exact absurd h hs
      · have hstep : waitLoop resp (k + 1 + 1) s =
            waitLoop resp (k + 1) (NRF24L01_GetStatus resp s).2 := by
          simp [waitLoop, hs]
        rw [hstep]
        rcases Nat.eq_zero_or_pos j with hj0 | hjpos
        · subst hj0
          apply ih
          left
          rw [GetStatus_spec]
          simpa using hgood
        · apply ih
          right
          refine ⟨j - 1, by omega, ?_⟩
          rw [GetStatus_spec]
          have : (st0.status % 256 + 2 * (j - 1)) = 2 * (j - 1) := by simp [st0]
          have harith : s.txIdx + 2 + 2 * (j - 1) = s.txIdx + 2 * j := by omega
          simpa [harith] using hgood

/-- Claim C5: `NRF24L01_WaitForTxComplete` in non-blocking mode returns,
independently of the available fuel (hence without looping), the value
`(status & (MAX_RT | TX_DS)) << 4` computed from the single status refresh
it performs (exactly one 2-byte poll transaction), and that value is 0 when
neither bit is set; in blocking mode, whenever some poll of the status
sequence has one of the two bits set, the loop terminates (some fuel
suffices) and returns the same nonzero encoding of the final status. -/
theorem C5_waitForTxComplete (resp : Nat → Byte) (s : St) :
    (∀ fuel, NRF24L01_WaitForTxComplete resp fuel false s =
      some (((resp s.txIdx % 256) &&& txDoneMask) <<< 4, (NRF24L01_GetStatus resp s).2))
    ∧ (NRF24L01_GetStatus resp s).2.txIdx = s.txIdx + 2
    ∧ ((resp s.txIdx % 256) &&& txDoneMask = 0 →
        ∀ fuel, NRF24L01_WaitForTxComplete resp fuel false s =
          some (0, (NRF24L01_GetStatus resp s).2))
    ∧ ((∃ k, (resp (s.txIdx + 2 * k) % 256) &&& txDoneMask ≠ 0) →
        ∃ fuel r s2, NRF24L01_WaitForTxComplete resp fuel true s = some (r, s2)
          ∧ r = (s2.status &&& txDoneMask) <<< 4 ∧ r ≠ 0) := by
  refine ⟨?_, ?_, ?_, ?_⟩
  · intro fuel
    simp [NRF24L01_WaitForTxComplete, GetStatus_spec]
  · rw [GetStatus_spec]
  · intro h0 fuel
    simp [NRF24L01_WaitForTxComplete, GetStatus_spec, h0]
  · rintro ⟨k, hk⟩
    have hpre : ((NRF24L01_GetStatus resp s).2.status &&& txDoneMask ≠ 0
        ∨ ∃ j, j < k ∧ (resp ((NRF24L01_GetStatus resp s).2.txIdx + 2 * j) % 256)
            &&& txDoneMask ≠ 0) := by
      rw [GetStatus_spec]
      rcases Nat.eq_zero_or_pos k with hk0 | hkpos
      · subst hk0; left; simpa using hk
      · right
        refine ⟨k - 1, by omega, ?_⟩
        have harith : s.txIdx + 2 + 2 * (k - 1) = s.txIdx + 2 * k := by omega
        simpa [harith] using hk
    obtain ⟨s2, hloop, hbit⟩ := waitLoop_term resp k (NRF24L01_GetStatus resp s).2 hpre
    refine ⟨k + 1, (s2.status &&& txDoneMask) <<< 4, s2, ?_, rfl, ?_⟩
    · simp [NRF24L01_WaitForTxComplete, hloop]
    · intro hzero
      rw [Nat.shiftLeft_eq] at hzero
      norm_num at hzero
      exact hbit hzero

/-- Witness for C5 at concrete inputs: blocking mode with every response
0x20 (TX_DS set) terminates with a nonzero result; non-blocking mode with
every response 0 returns 0. -/
theorem C5_witness :
    (∃ fuel r s2, NRF24L01_WaitForTxComplete (fun _ => 0x20) fuel true st0 = some (r, s2)
      ∧ r = (s2.status &&& txDoneMask) <<< 4 ∧ r ≠ 0)
    ∧ (∀ fuel, NRF24L01_WaitForTxComplete (fun _ => 0) fuel false st0 =
        some (0, (NRF24L01_GetStatus (fun _ => 0) st0).2)) :=
  ⟨(C5_waitForTxComplete (fun _ => 0x20) st0).2.2.2 ⟨0, by decide⟩,
   (C5_waitForTxComplete (fun _ => 0) st0).2.2.1 (by decide)⟩

/-- Claim C6: for a pipe index below 6, `NRF24L01_GetRxDataAmount` reads the
pipe's payload-width register `RX_PW_P0 + pipe` (one 2-byte read bracket)
and returns the value masked to the low 6 bits; for a pipe index of 6 or
more it returns 0 with the state (hence the trace) completely unchanged and
no error signalled. -/
theorem C6_getRxDataAmount (resp : Nat → Byte) (pipe : Byte) (s : St) :
    (pipe < 6 →
      (NRF24L01_GetRxDataAmount resp pipe s).1 = (resp (s.txIdx + 1) % 256) &&& 0x3F
      ∧ (NRF24L01_GetRxDataAmount resp pipe s).2.events =
          s.events ++ [Ev.csnLow,
            Ev.xfer (RF24_R_REGISTER ||| (RF24_RX_PW_P0 + pipe)) (resp s.txIdx % 256),
            Ev.xfer RF24_NOP (resp (s.txIdx + 1) % 256), Ev.csnHigh])
    ∧ (6 ≤ pipe → NRF24L01_GetRxDataAmount resp pipe s = (0, s)) := by
  constructor
  · intro h
    simp [NRF24L01_GetRxDataAmount, h, RegisterRead_8_spec, readBracket]
  · intro h
    have : ¬ pipe < 6 := Nat.not_lt.mpr h
    simp [NRF24L01_GetRxDataAmount, this]

/-- Witness for C6 at pipe 2 (in range, payload-width response 0x7F masked
to 0x3F) and pipe 255 (out of range, state unchanged). -/
theorem C6_witness :
    (NRF24L01_GetRxDataAmount (fun _ => 0x7F) 2 st0).1 = 0x3F
    ∧ NRF24L01_GetRxDataAmount (fun _ => 0x7F) 255 st0 = (0, st0) :=
  ⟨(((C6_getRxDataAmount (fun _ => 0x7F) 2 st0).1 (by decide)).1).trans (by decide),
   (C6_getRxDataAmount (fun _ => 0x7F) 255 st0).2 (by decide)⟩

/-- Claim C7: for a non-null 5-byte address, `NRF24L01_SetRxAddress` on
pipes 0-1 issues exactly one 5-byte multi register write to
`RX_ADDR_P0 + pipe` carrying the 5 address bytes; on pipes 2-5 it issues
exactly one single-byte register write of `address[0]` to
`RX_ADDR_P0 + pipe`; on pipe indices of 6 and above it issues nothing (state
unchanged). -/
theorem C7_setRxAddress (resp : Nat → Byte) (pipe : Byte) (a : List Byte)
    (s : St) (h5 : a.length = 5) :
    (pipe ≤ 1 →
      (NRF24L01_SetRxAddress resp true pipe (some a) s).events =
        s.events ++ [Ev.csnLow,
          Ev.xfer (RF24_W_REGISTER ||| (RF24_RX_ADDR_P0 + pipe)) (resp s.txIdx % 256)]
          ++ xferEvents resp (s.txIdx + 1) a ++ [Ev.csnHigh]
      ∧ sentBytes (xferEvents resp (s.txIdx + 1) a) = a)
    ∧ (2 ≤ pipe → pipe ≤ 5 →
      (NRF24L01_SetRxAddress resp true pipe (some a) s).events =
        s.events ++ [Ev.csnLow,
          Ev.xfer (RF24_W_REGISTER ||| (RF24_RX_ADDR_P0 + pipe)) (resp s.txIdx % 256),
          Ev.xfer (a.headD 0) (resp (s.txIdx + 1) % 256), Ev.csnHigh])
    ∧ (6 ≤ pipe → NRF24L01_SetRxAddress resp true pipe (some a) s = s) := by
  have htake : a.take 5 = a := by
    rw [← h5]; exact List.take_length a
  refine ⟨?_, ?_, ?_⟩
  · intro h
    constructor
    · simp [NRF24L01_SetRxAddress, h, htake, RegisterWrite_Multi_spec]
    · exact sentBytes_xferEvents resp a _
  · intro h2 h5'
    have h1 : ¬ pipe ≤ 1 := Nat.not_le.mpr h2
    simp [NRF24L01_SetRxAddress, h1, h5', RegisterWrite_8_spec, writeBracket]
  · intro h6
    have h1 : ¬ pipe ≤ 1 := Nat.not_le.mpr (Nat.le_trans (by decide) h6)
    have h5n : ¬ pipe ≤ 5 := Nat.not_le.mpr h6
    simp [NRF24L01_SetRxAddress, h1, h5n]

/-- Witness for C7 at the spec's own examples: pipe 0 with address
[0xAA,0xBB,0xCC,0xDD,0xEE], pipe 3 with the same 5-byte address (single-byte
write of 0xAA), and pipe 6 (nothing issued). -/
theorem C7_witness :
    ((NRF24L01_SetRxAddress (fun _ => 0x0E) true 0
        (some [0xAA, 0xBB, 0xCC, 0xDD, 0xEE]) st0).events =
      [Ev.csnLow, Ev.xfer (RF24_W_REGISTER ||| RF24_RX_ADDR_P0) 0x0E]
        ++ xferEvents (fun _ => 0x0E) 1 [0xAA, 0xBB, 0xCC, 0xDD, 0xEE] ++ [Ev.csnHigh]
      ∧ sentBytes (xferEvents (fun _ => 0x0E) 1 [0xAA, 0xBB, 0xCC, 0xDD, 0xEE]) =
        [0xAA, 0xBB, 0xCC, 0xDD, 0xEE])
    ∧ (NRF24L01_SetRxAddress (fun _ => 0x0E) true 3
        (some [0xAA, 0xBB, 0xCC, 0xDD, 0xEE]) st0).events =
      [Ev.csnLow, Ev.xfer (RF24_W_REGISTER ||| (RF24_RX_ADDR_P0 + 3)) 0x0E,
       Ev.xfer 0xAA 0x0E, Ev.csnHigh]
    ∧ NRF24L01_SetRxAddress (fun _ => 0x0E) true 6
        (some [0xAA, 0xBB, 0xCC, 0xDD, 0xEE]) st0 = st0 := by
  refine ⟨?_, ?_, ?_⟩
  · have h := (C7_setRxAddress (fun _ => 0x0E) 0 [0xAA, 0xBB, 0xCC, 0xDD, 0xEE] st0
      (by decide)).1 (by decide)
    simpa [st0] using h
  · have h := (C7_setRxAddress (fun _ => 0x0E) 3 [0xAA, 0xBB, 0xCC, 0xDD, 0xEE] st0
      (by decide)).2.1 (by decide) (by decide)
    simpa [st0] using h
  · exact (C7_setRxAddress (fun _ => 0x0E) 6 [0xAA, 0xBB, 0xCC, 0xDD, 0xEE] st0
      (by decide)).2.2 (by decide)

/-- Counterexample to claim C8: `_NRF24L01_SendCommand` (arm variant) called
with a NULL payload pointer and nonzero length 1 is NOT silently skipped
(allocation succeeding): it toggles CSN, transfers 2 bytes (the opcode
followed by one unspecified byte from the freshly allocated buffer, here
0xCD), and overwrites the stored status byte with 0xAB. -/
theorem C8_counterexample :
    (sendCommandArm (fun _ => 0xAB) (fun _ => 0xCD) true RF24_W_TX_PAYLOAD none 1 st0).events =
      [Ev.csnLow, Ev.xfer RF24_W_TX_PAYLOAD 0xAB, Ev.xfer 0xCD 0xAB, Ev.csnHigh]
    ∧ (sendCommandArm (fun _ => 0xAB) (fun _ => 0xCD) true RF24_W_TX_PAYLOAD none 1 st0).status
        = 0xAB := by
  decide

/-- Claim C8 as amended: the multi-byte register write is silently skipped
(state completely unchanged) on a NULL data pointer or on allocation
failure, and `sendCommand` (arm variant) is silently skipped on allocation
failure; but `sendCommand` with a NULL payload pointer and any length is
still executed: it brackets with CSN the opcode followed by `len`
unspecified bytes from the freshly allocated buffer, and overwrites the
stored status byte with the first byte received. -/
theorem C8_amended_null_and_alloc_behavior (resp junk : Nat → Byte)
    (allocOk : Bool) (r cmd : Byte) (buf : List Byte)
    (data : Option (List Byte)) (len : Nat) (s : St) :
    NRF24L01_RegisterWrite_Multi resp allocOk r none s = s
    ∧ NRF24L01_RegisterWrite_Multi resp false r (some buf) s = s
    ∧ sendCommandArm resp junk false cmd data len s = s
    ∧ (sendCommandArm resp junk true cmd none len s).events =
        s.events ++ [Ev.csnLow, Ev.xfer cmd (resp s.txIdx % 256)]
          ++ xferEvents resp (s.txIdx + 1) ((List.range len).map junk) ++ [Ev.csnHigh]
    ∧ (sendCommandArm resp junk true cmd none len s).status = resp s.txIdx % 256 := by
  refine ⟨rfl, ?_, ?_, ?_, ?_⟩
  · simp [NRF24L01_RegisterWrite_Multi]
  · simp [sendCommandArm]
  · rw [sendCommandArm_spec]
  · rw [sendCommandArm_spec]

/-- Counterexample to claim C9: `NRF24L01_SetRFChannel` does not perform a
read-modify-write: its whole trace is a single CSN bracket containing one
direct register write of the argument (two transferred bytes, no read of
any register's current value). -/
theorem C9_counterexample :
    (NRF24L01_SetRFChannel (fun _ => 0) 42 st0).events =
      [Ev.csnLow, Ev.xfer (RF24_W_REGISTER ||| RF24_RF_CH) 0, Ev.xfer 42 0, Ev.csnHigh]
    ∧ (NRF24L01_SetRFChannel (fun _ => 0) 42 st0).events.count Ev.csnLow = 1 := by
  decide

/-- Claim C9 as amended: `setAirDataRate`, `setPAGain` and `setLNAGain`
perform a read-modify-write of the RF_SETUP register - one read transaction
followed by one write transaction whose value is the value read with the
operation's bit/field OR-ed in (truncated to a byte); `setRFChannel` instead
performs a single direct write of its argument to RF_CH, with no read and no
masking; the test variant's `SetPAGain` clamps its dBm argument to the
range [-18, 0] (arguments outside the range behave like the nearest bound),
while the arm variant applies no range validation. -/
theorem C9_amended_setters (resp : Nat → Byte) (a ch : Byte) (g : Int) (s : St) :
    (NRF24L01_SetAirDataRate_arm resp a s).events =
      s.events ++ readBracket resp s.txIdx RF24_RF_SETUP
        ++ writeBracket resp (s.txIdx + 2) RF24_RF_SETUP
            (((resp (s.txIdx + 1) % 256) ||| (a <<< 3)) % 256)
    ∧ (NRF24L01_SetPAGain_arm resp a s).events =
      s.events ++ readBracket resp s.txIdx RF24_RF_SETUP
        ++ writeBracket resp (s.txIdx + 2) RF24_RF_SETUP
            (((resp (s.txIdx + 1) % 256) ||| (a <<< 1)) % 256)
    ∧ (NRF24L01_SetLNAGain resp a s).events =
      s.events ++ readBracket resp s.txIdx RF24_RF_SETUP
        ++ writeBracket resp (s.txIdx + 2) RF24_RF_SETUP
            (((resp (s.txIdx + 1) % 256) ||| (a <<< 0)) % 256)
    ∧ (NRF24L01_SetRFChannel resp ch s).events =
      s.events ++ writeBracket resp s.txIdx RF24_RF_CH ch
    ∧ (NRF24L01_SetRFChannel resp ch s).events.count Ev.csnLow =
        s.events.count Ev.csnLow + 1
    ∧ (g < -18 → NRF24L01_SetPAGain_test resp g s = NRF24L01_SetPAGain_test resp (-18) s)
    ∧ (0 < g → NRF24L01_SetPAGain_test resp g s = NRF24L01_SetPAGain_test resp 0 s) := by
  refine ⟨?_, ?_, ?_, ?_, ?_, ?_, ?_⟩
  · simp [NRF24L01_SetAirDataRate_arm, RegisterRead_8_spec, RegisterWrite_8_spec,
          List.append_assoc]
  · simp [NRF24L01_SetPAGain_arm, RegisterRead_8_spec, RegisterWrite_8_spec,
          List.append_assoc]
  · simp [NRF24L01_SetLNAGain, RegisterRead_8_spec, RegisterWrite_8_spec,
          List.append_assoc]
  · simp [NRF24L01_SetRFChannel, RegisterWrite_8_spec]
  · simp [NRF24L01_SetRFChannel, RegisterWrite_8_spec, writeBracket, List.count_append]
  · intro h
    have h1 : (if g < -18 then (-18 : Int) else if g > 0 then 0 else g) = -18 := if_pos h
    simp only [NRF24L01_SetPAGain_test, h1]
    norm_num
  · intro h
    have h0 : ¬ g < -18 := by omega
    have h1 : (if g < -18 then (-18 : Int) else if g > 0 then 0 else g) = 0 := by
      rw [if_neg h0, if_pos h]
    simp only [NRF24L01_SetPAGain_test, h1]
    norm_num

/-- Witness for C9 at concrete inputs: the test variant's `SetPAGain` at
-20 dBm behaves exactly as at the lower clamp bound -18 dBm, and at +5 dBm
exactly as at the upper clamp bound 0 dBm. -/
theorem C9_witness :
    NRF24L01_SetPAGain_test (fun _ => 0) (-20) st0 =
      NRF24L01_SetPAGain_test (fun _ => 0) (-18) st0
    ∧ NRF24L01_SetPAGain_test (fun _ => 0) 5 st0 =
      NRF24L01_SetPAGain_test (fun _ => 0) 0 st0 :=
  ⟨(C9_amended_setters (fun _ => 0) 0 0 (-20) st0).2.2.2.2.2.1 (by norm_num),
   (C9_amended_setters (fun _ => 0) 0 0 5 st0).2.2.2.2.2.2 (by norm_num)⟩

/-- Claim C10: the arm-variant RF_SETUP setters only ever OR bits into the
register: for current value `v` (the byte read back) and argument `a`,
`setAirDataRate` writes `v | (a << 3)`, `setPAGain` writes `v | (a << 1)`
and `setLNAGain` writes `v | a` (each truncated to a byte by the C
assignment); consequently every bit already set in the (8-bit) value read
stays set in the value written, whatever the shift; in particular writing
with argument 1 and then with argument 0 through the data-rate field leaves
bit 3 set. -/
theorem C10_rf_setup_setters_or_only (resp : Nat → Byte) (a v : Byte)
    (i k : Nat) (s : St) :
    (NRF24L01_SetAirDataRate_arm resp a s).events =
      s.events ++ readBracket resp s.txIdx RF24_RF_SETUP
        ++ writeBracket resp (s.txIdx + 2) RF24_RF_SETUP
            (((resp (s.txIdx + 1) % 256) ||| (a <<< 3)) % 256)
    ∧ (NRF24L01_SetPAGain_arm resp a s).events =
      s.events ++ readBracket resp s.txIdx RF24_RF_SETUP
        ++ writeBracket resp (s.txIdx + 2) RF24_RF_SETUP
            (((resp (s.txIdx + 1) % 256) ||| (a <<< 1)) % 256)
    ∧ (NRF24L01_SetLNAGain resp a s).events =
      s.events ++ readBracket resp s.txIdx RF24_RF_SETUP
        ++ writeBracket resp (s.txIdx + 2) RF24_RF_SETUP
            (((resp (s.txIdx + 1) % 256) ||| (a <<< 0)) % 256)
    ∧ (v < 256 → v.testBit i = true → ((v ||| (a <<< k)) % 256).testBit i = true)
    ∧ (v < 256 →
        ((((v ||| ((1 : Nat) <<< 3)) % 256) ||| ((0 : Nat) <<< 3)) % 256).testBit 3 = true) := by
  refine ⟨?_, ?_, ?_, ?_, ?_⟩
  · simp [NRF24L01_SetAirDataRate_arm, RegisterRead_8_spec, RegisterWrite_8_spec,
          List.append_assoc]
  · simp [NRF24L01_SetPAGain_arm, RegisterRead_8_spec, RegisterWrite_8_spec,
          List.append_assoc]
  · simp [NRF24L01_SetLNAGain, RegisterRead_8_spec, RegisterWrite_8_spec,
          List.append_assoc]
  · intro hv hbit
    have hi : i < 8 := by
      by_contra hni
      have hle : (2 : Nat) ^ 8 ≤ 2 ^ i :=
        Nat.pow_le_pow_right (by norm_num) (Nat.le_of_not_lt hni)
      have : v < 2 ^ i := lt_of_lt_of_le hv hle
      rw [Nat.testBit_lt_two_pow this] at hbit
      exact Bool.false_ne_true hbit
    rw [show (256 : Nat) = 2 ^ 8 from rfl, Nat.testBit_mod_two_pow]
    simp [hi, Nat.testBit_or, hbit]
  · intro hv
    have h8 : ((0 : Nat) <<< 3) = 0 := rfl
    rw [h8, Nat.or_zero, Nat.mod_mod_of_dvd _ (dvd_refl 256),
        show (256 : Nat) = 2 ^ 8 from rfl, Nat.testBit_mod_two_pow]
    simp [Nat.testBit_or]
    exact Or.inr (by decide)

/-- Witness for C10: bit 0 of the value 0x41 survives OR-ing in `5 << 3`,
and the 1-then-0 data-rate sequence leaves bit 3 of the written value set
(starting from register value 0). -/
theorem C10_witness :
    ((0x41 ||| ((5 : Nat) <<< 3)) % 256).testBit 0 = true
    ∧ ((((0 ||| ((1 : Nat) <<< 3)) % 256) ||| ((0 : Nat) <<< 3)) % 256).testBit 3 = true :=
  ⟨(C10_rf_setup_setters_or_only (fun _ => 0) 5 0x41 0 3 st0).2.2.2.1 (by decide) (by decide),
   (C10_rf_setup_setters_or_only (fun _ => 0) 1 0 3 3 st0).2.2.2.2 (by decide)⟩
